import Mathlib

/-!
Shallow embedding of the Jad RL environment core (TypeScript sources in
`src/core/` plus the multi-head action codec) and proofs about its
specification.  Entities come from an external engine (`osrs-sdk`); only the
fields the core reads (health, position, dying counter, attack countdown,
attack style) are modelled.  The engine marks a unit as "not dying" with a
`dying` counter equal to `-1`; the repository checks both `isDying()` and
`dying === -1` interchangeably, so `isDying` is modelled as `dying ≠ -1`.
-/

namespace JadEnv

/-- Configuration: boss count and adds per boss (`types.ts` `JadConfig`). -/
structure JadConfig where
  jadCount : Nat
  healersPerJad : Nat
  deriving Repr, DecidableEq

/-- A boss entity, as the core reads it from the engine (`Jad` in `jad.ts`
plus the engine fields `dying`, `currentStats.hitpoint`, `location`,
`attackDelay`, `attackStyle`).  `statsHitpoint` is the maximum health
(`stats.hitpoint`), `hasProccedHealers` the one-shot add-spawn flag, and
`healerCount` the per-boss add count passed to the constructor. -/
structure JadEnt where
  dying : Int
  hitpoint : Int
  statsHitpoint : Int
  x : Int
  y : Int
  attackDelay : Int
  attackStyle : String
  hasProccedHealers : Bool
  healerCount : Nat
  deriving Repr, DecidableEq

/-- Engine liveness counter check: a unit is dying unless its counter is -1. -/
def JadEnt.isDying (j : JadEnt) : Bool := j.dying != -1

/-- An add (healer) entity (`YtHurKot` in `healer.ts`): engine fields read by
the core.  `aggroIsPlayer` models `aggro && aggro.type === UnitTypes.PLAYER`. -/
structure HealerEnt where
  dying : Int
  hitpoint : Int
  x : Int
  y : Int
  aggroIsPlayer : Bool
  deriving Repr, DecidableEq

def HealerEnt.isDying (h : HealerEnt) : Bool := h.dying != -1

/-- The three-slot healer storage of `jad-region.ts`
(`type HealerTuple = [YtHurKot | null, YtHurKot | null, YtHurKot | null]`). -/
def HealerTuple := Option HealerEnt × Option HealerEnt × Option HealerEnt

instance : DecidableEq HealerTuple := by
  unfold HealerTuple
  infer_instance

/-- Index into a `HealerTuple` by a (possibly out-of-range) integer index. -/
def HealerTuple.get (t : HealerTuple) (i : Int) : Option HealerEnt :=
  if i = 0 then t.1 else if i = 1 then t.2.1 else if i = 2 then t.2.2 else none

/-- State of a `JadRegion` (`jad-region.ts`): the stably-indexed `_jads`
array and the `_healers : Map<number, HealerTuple>`, modelled as an
association list keyed by the boss index. -/
structure RegionState where
  config : JadConfig
  jads : List JadEnt
  healersMap : List (Int × HealerTuple)
  deriving DecidableEq

/-- `JadRegion.getJad(index)` (`jad-region.ts` lines 139-145): absent when the
index is out of range, or the boss is dying, or its health is ≤ 0. -/
def getJad (s : RegionState) (index : Int) : Option JadEnt :=
  if index < 0 ∨ (s.jads.length : Int) ≤ index then none
  else
    match s.jads.get? index.toNat with
    | none => none
    | some jad => if jad.isDying ∨ jad.hitpoint ≤ 0 then none else some jad

/-- `JadRegion.getHealer(jadIndex, healerIndex)` (`jad-region.ts` lines
185-198): absent when the parent boss exists but is dying or at ≤ 0 health,
when no tuple was registered, when the healer index is outside 0..2, or when
the healer itself is missing, dying or at ≤ 0 health. -/
def getHealer (s : RegionState) (jadIndex healerIndex : Int) : Option HealerEnt :=
  let parentDead : Bool :=
    match (if 0 ≤ jadIndex then s.jads.get? jadIndex.toNat else none) with
    | some jad => jad.isDying || decide (jad.hitpoint ≤ 0)
    | none => false
  if parentDead then none
  else
    match s.healersMap.lookup jadIndex with
    | none => none
    | some tuple =>
      if healerIndex < 0 ∨ 3 ≤ healerIndex then none
      else
        match tuple.get healerIndex with
        | none => none
        | some healer =>
          if healer.isDying ∨ healer.hitpoint ≤ 0 then none else some healer

/-- Healer aggro as reported to the observation (`HealerAggro` enum). -/
inductive HealerAggro where
  | NOT_PRESENT
  | JAD
  | PLAYER
  deriving Repr, DecidableEq

/-- `JadRegion.getHealerAggro` (`jad-region.ts` lines 203-212). -/
def getHealerAggro (s : RegionState) (jadIndex healerIndex : Int) : HealerAggro :=
  match getHealer s jadIndex healerIndex with
  | none => HealerAggro.NOT_PRESENT
  | some healer => if healer.aggroIsPlayer then HealerAggro.PLAYER else HealerAggro.JAD

/-- Per-boss attack tracking state (`JadAttackState` in `types.ts`):
`attack` is 0 = idle, 1 = magic, 2 = range, 3 = melee. -/
structure JadAttackState where
  attack : Nat
  ticksRemaining : Nat
  prevAttackDelay : Int
  deriving Repr, DecidableEq

/-- Loop body of `updateJadAttackTracking` (`observation.ts` lines 181-207)
for one boss that is present, given the boss's current `attackDelay` and
`attackStyle`: launch detection (countdown ≤ 1 then > 1), style snapshot,
window decrement, and `prevAttackDelay` update. -/
def updateJadAttackTracking1 (state : JadAttackState) (currentDelay : Int)
    (style : String) : JadAttackState :=
  let s1 :=
    if state.prevAttackDelay ≤ 1 ∧ 1 < currentDelay then
      if style = "magic" then { state with attack := 1, ticksRemaining := 4 }
      else if style = "range" then { state with attack := 2, ticksRemaining := 4 }
      else { state with attack := 3, ticksRemaining := 2 }
    else state
  let s2 :=
    if 0 < s1.ticksRemaining then
      let r := s1.ticksRemaining - 1
      if r = 0 then { s1 with ticksRemaining := r, attack := 0 }
      else { s1 with ticksRemaining := r }
    else s1
  { s2 with prevAttackDelay := currentDelay }

/-- `updateJadAttackTracking` (`observation.ts` lines 172-209): for each boss
index, skip absent bosses, otherwise update the boss's tracking state in
place. -/
def updateJadAttackTracking (r : RegionState) (cfg : JadConfig)
    (attackStates : List JadAttackState) : List JadAttackState :=
  (List.range cfg.jadCount).foldl
    (fun states (i : Nat) =>
      match getJad r (i : Int) with
      | none => states
      | some jad =>
        match states.get? i with
        | none => states
        | some st => states.set i (updateJadAttackTracking1 st jad.attackDelay jad.attackStyle))
    attackStates

/-- Runs `updateJadAttackTracking` once per tick over a sequence of region
snapshots, returning the tracker state list after each tick. -/
def runAttackTracking (cfg : JadConfig) (states : List JadAttackState) :
    List RegionState → List (List JadAttackState)
  | [] => []
  | r :: rest =>
    let states' := updateJadAttackTracking r cfg states
    states' :: runAttackTracking cfg states' rest

/-- Per-boss observation entry (`JadState` as built by `buildJadStates`). -/
structure JadState where
  hp : Int
  attack : Nat
  x : Int
  y : Int
  alive : Bool
  deriving Repr, DecidableEq

/-- Per-add observation entry (`HealerState` as built by `buildHealerStates`). -/
structure HealerState where
  hp : Int
  x : Int
  y : Int
  aggro : HealerAggro
  deriving Repr, DecidableEq

/-- `buildJadStates` (`observation.ts` lines 106-131): one entry per boss
index; an absent boss yields the all-zero placeholder entry. -/
def buildJadStates (r : RegionState) (cfg : JadConfig)
    (attackStates : List JadAttackState) : List JadState :=
  (List.range cfg.jadCount).map fun (i : Nat) =>
    match getJad r (i : Int) with
    | some jad =>
      { hp := jad.hitpoint
        attack := ((attackStates.get? i).map (fun s => s.attack)).getD 0
        x := jad.x
        y := jad.y
        alive := jad.dying = -1 ∧ 0 < jad.hitpoint }
    | none => { hp := 0, attack := 0, x := 0, y := 0, alive := false }

/-- `buildHealerStates` (`observation.ts` lines 136-166): flattened per-add
entries in (bossIndex, addIndex) order; an absent add yields the zero
placeholder with `NOT_PRESENT` aggro.  The second component is the
`healersSpawned` flag (set when any add is present). -/
def buildHealerStates (r : RegionState) (cfg : JadConfig) :
    List HealerState × Bool :=
  let healers :=
    (List.range cfg.jadCount).flatMap fun (jadIdx : Nat) =>
      (List.range cfg.healersPerJad).map fun (healerIdx : Nat) =>
        match getHealer r (jadIdx : Int) (healerIdx : Int) with
        | some healer =>
          { hp := healer.hitpoint
            x := healer.x
            y := healer.y
            aggro := getHealerAggro r (jadIdx : Int) (healerIdx : Int) }
        | none => { hp := 0, x := 0, y := 0, aggro := HealerAggro.NOT_PRESENT }
  let healersSpawned :=
    (List.range cfg.jadCount).any fun (jadIdx : Nat) =>
      (List.range cfg.healersPerJad).any fun (healerIdx : Nat) =>
        (getHealer r (jadIdx : Int) (healerIdx : Int)).isSome
  (healers, healersSpawned)

/-- Target-head no-op value (`types.ts` `TARGET_NO_OP`). -/
def TARGET_NO_OP : Nat := 0

/-- Head sizes (`types.ts`). -/
def PROTECTION_PRAYER_SIZE : Nat := 4

def OFFENSIVE_PRAYER_SIZE : Nat := 2

def POTION_SIZE : Nat := 4

/-- `getTargetHeadSize` (`types.ts` lines 119-121):
1 (no-op) + N (bosses) + N·H (adds). -/
def getTargetHeadSize (config : JadConfig) : Nat :=
  1 + config.jadCount + config.jadCount * config.healersPerJad

/-- `getActionSpaceDims` (multi-head action codec): the four head sizes. -/
def getActionSpaceDims (config : JadConfig) : List Nat :=
  [PROTECTION_PRAYER_SIZE, OFFENSIVE_PRAYER_SIZE, POTION_SIZE, getTargetHeadSize config]

/-- What `executeTarget` resolves a head-3 value to: keep the current target,
aggro a boss by index, or aggro an add by (bossIndex, addIndex). -/
inductive TargetResolution where
  | noop
  | jad (jadIndex : Nat)
  | healer (jadIndex healerIndex : Nat)
  deriving Repr, DecidableEq

/-- Index decoding performed by `executeTarget` (multi-head action codec,
lines 140-165): 0 is a no-op, 1..N aggroes boss action-1, and values above N
decode to `(healerAction / healersPerJad, healerAction % healersPerJad)`
where `healerAction = action - N - 1`. -/
def executeTargetDecode (action : Nat) (config : JadConfig) : TargetResolution :=
  if action = TARGET_NO_OP then TargetResolution.noop
  else if action ≤ config.jadCount then TargetResolution.jad (action - 1)
  else
    let healerAction := action - config.jadCount - 1
    TargetResolution.healer (healerAction / config.healersPerJad)
      (healerAction % config.healersPerJad)

/-- Boss target encoding used by `getPlayerAggroTarget` (`observation.ts`
line 80): boss index `i` is reported as `i + 1`. -/
def encodeJadTarget (jadIndex : Nat) : Nat := jadIndex + 1

/-- Add target encoding used by `getPlayerAggroTarget` (`observation.ts`
line 91): `(jadIdx, healerIdx)` is reported as
`jadCount + jadIdx * healersPerJad + healerIdx + 1`. -/
def encodeHealerTarget (config : JadConfig) (jadIndex healerIndex : Nat) : Nat :=
  config.jadCount + jadIndex * config.healersPerJad + healerIndex + 1

/-- Dose fields of the observation consulted by the validity masks
(built by `countPotionDoses` over the player's inventory). -/
structure DoseObs where
  bastion_doses : Nat
  super_restore_doses : Nat
  sara_brew_doses : Nat
  deriving Repr, DecidableEq

/-- `buildValidActionMask` (multi-head action codec, lines 210-255): four
per-head boolean masks.  Heads 0-1 are all-true; head 2 is
`[true, bastion>0, restore>0, brew>0]`; head 3 starts all-false, sets the
no-op entry, then one entry per boss (`getJad i !== null`) and one per add
(`getHealer(j,k) !== null`) at index `1 + N + j·H + k`. -/
def buildValidActionMask (r : RegionState) (config : JadConfig)
    (observation : DoseObs) : List (List Bool) :=
  let numJads := config.jadCount
  let healersPerJad := config.healersPerJad
  let targetHeadSize := getTargetHeadSize config
  let protectionMask := List.replicate PROTECTION_PRAYER_SIZE true
  let offensiveMask := List.replicate OFFENSIVE_PRAYER_SIZE true
  let potionMask :=
    [true,
     decide (0 < observation.bastion_doses),
     decide (0 < observation.super_restore_doses),
     decide (0 < observation.sara_brew_doses)]
  let targetMask0 := (List.replicate targetHeadSize false).set 0 true
  let targetMask1 :=
    (List.range numJads).foldl
      (fun m (i : Nat) => m.set (1 + i) (getJad r (i : Int)).isSome) targetMask0
  let targetMask :=
    (List.range numJads).foldl
      (fun m (jadIdx : Nat) =>
        (List.range healersPerJad).foldl
          (fun m (healerIdx : Nat) =>
            m.set (1 + numJads + jadIdx * healersPerJad + healerIdx)
              (getHealer r (jadIdx : Int) (healerIdx : Int)).isSome)
          m)
      targetMask1
  [protectionMask, offensiveMask, potionMask, targetMask]

/-- `getActionSpaceSize` (`actions.ts` lines 139-144): size of the legacy
flattened action space. -/
def getActionSpaceSize (config : JadConfig) : Nat :=
  1 + config.jadCount + config.jadCount * config.healersPerJad + 7

/-- Legacy `buildValidActionMask` (`actions.ts` lines 162-206): a single
flattened boolean array - DO_NOTHING, per-boss entries, per-add entries, four
always-valid prayer toggles, then three dose-gated potion entries. -/
def buildValidActionMaskLegacy (r : RegionState) (config : JadConfig)
    (observation : DoseObs) : List Bool :=
  let numJads := config.jadCount
  let healersPerJad := config.healersPerJad
  let numHealers := numJads * healersPerJad
  let actionSpaceSize := getActionSpaceSize config
  let mask0 := (List.replicate actionSpaceSize false).set 0 true
  let mask1 :=
    (List.range numJads).foldl
      (fun m (i : Nat) => m.set (1 + i) (getJad r (i : Int)).isSome) mask0
  let mask2 :=
    (List.range numJads).foldl
      (fun m (jadIdx : Nat) =>
        (List.range healersPerJad).foldl
          (fun m (healerIdx : Nat) =>
            m.set (1 + numJads + jadIdx * healersPerJad + healerIdx)
              (getHealer r (jadIdx : Int) (healerIdx : Int)).isSome)
          m)
      mask1
  let prayerPotionBase := 1 + numJads + numHealers
  ((((((mask2.set (prayerPotionBase + 0) true).set
        (prayerPotionBase + 1) true).set
        (prayerPotionBase + 2) true).set
        (prayerPotionBase + 3) true).set
        (prayerPotionBase + 4) (decide (0 < observation.bastion_doses))).set
        (prayerPotionBase + 5) (decide (0 < observation.super_restore_doses))).set
        (prayerPotionBase + 6) (decide (0 < observation.sara_brew_doses))

/-- Healer aggro as stored in the reward-side observation (`types.ts`
`HealerTarget`; duplicates `HealerAggro` in the region module). -/
inductive HealerTarget where
  | NOT_PRESENT
  | JAD
  | PLAYER
  deriving Repr, DecidableEq

/-- Episode termination state (`types.ts` `TerminationState`). -/
inductive TerminationState where
  | ONGOING
  | PLAYER_DIED
  | JAD_KILLED
  deriving Repr, DecidableEq

/-- Per-boss entry of the reward-side observation (`types.ts` `JadState`). -/
structure ObsJadState where
  hp : Rat
  attack : Nat
  ticks_until_impact : Nat
  x : Rat
  y : Rat
  alive : Bool
  deriving Repr, DecidableEq

/-- Per-add entry of the reward-side observation (`types.ts` `HealerState`). -/
structure ObsHealerState where
  hp : Rat
  x : Rat
  y : Rat
  target : HealerTarget
  deriving Repr, DecidableEq

/-- The observation consumed by the reward functions (`types.ts`
`Observation`). -/
structure Observation where
  player_hp : Rat
  player_prayer : Rat
  player_ranged : Rat
  player_defence : Rat
  player_location_x : Rat
  player_location_y : Rat
  player_target : Nat
  active_prayer : Nat
  rigour_active : Bool
  jads : List ObsJadState
  healers : List ObsHealerState
  healers_spawned : Bool
  next_projectile_type : Nat
  next_projectile_ticks : Nat
  bastion_doses : Nat
  sara_brew_doses : Nat
  super_restore_doses : Nat
  starting_bastion_doses : Nat
  starting_sara_brew_doses : Nat
  starting_super_restore_doses : Nat
  deriving DecidableEq

/-- A registered reward function (`rewards.ts` `RewardFunction`). -/
def RewardFunction :=
  Observation → Option Observation → TerminationState → Nat → Rat

/-- `healerTagReward` (`rewards.ts` lines 35-47): +5.0 per add whose target
flipped from the boss to the player since the previous observation. -/
def healerTagReward (obs prevObs : Observation) : Rat :=
  (obs.healers.zip prevObs.healers).foldl
    (fun reward hp =>
      if hp.2.target = HealerTarget.JAD ∧ hp.1.target = HealerTarget.PLAYER then
        reward + 5.0
      else reward)
    0

/-- `healerTargetingJadPenalty` (`rewards.ts` lines 49-59). -/
def healerTargetingJadPenalty (obs : Observation) (penaltyPerHealer : Rat) : Rat :=
  obs.healers.foldl
    (fun penalty healer =>
      if healer.target = HealerTarget.JAD then penalty + penaltyPerHealer else penalty)
    0

/-- `prayerLandingReward` (`rewards.ts` lines 61-82): fires once per boss on
the tick the attack visibility window closes (prev attack non-zero, current
zero), rewarding `correct` when the active protection prayer matches the
snapshotted style and `wrong` otherwise. -/
def prayerLandingReward (obs prevObs : Observation) (correct wrong : Rat) : Rat :=
  (obs.jads.zip prevObs.jads).foldl
    (fun reward jp =>
      if jp.2.attack ≠ 0 ∧ jp.1.attack = 0 then
        if obs.active_prayer = jp.2.attack then reward + correct else reward + wrong
      else reward)
    0

/-- `jadKillReward` (`rewards.ts` lines 84-96). -/
def jadKillReward (obs prevObs : Observation) (killReward : Rat) : Rat :=
  (obs.jads.zip prevObs.jads).foldl
    (fun reward jp =>
      if 0 < jp.2.hp ∧ jp.1.hp ≤ 0 then reward + killReward else reward)
    0

/-- The function registered under the name `default` (`rewards.ts` lines
98-153). -/
def rewardFnDefault : RewardFunction := fun obs prevObs termination episodeLength =>
  match prevObs with
  | none => 0
  | some prevObs =>
    let reward : Rat := 0
    let reward := reward + prayerLandingReward obs prevObs 2.5 (-7.5)
    let reward := if obs.player_target = 0 then reward - 0.5 else reward
    let reward := if !obs.rigour_active then reward - 0.2 else reward
    let reward := reward - (1 - obs.player_ranged / 112.0)
    let damageTaken := prevObs.player_hp - obs.player_hp
    let reward := if 0 < damageTaken then reward - damageTaken * 0.1 else reward
    let reward :=
      (obs.jads.zip prevObs.jads).foldl
        (fun reward jp =>
          let jadDamage := jp.2.hp - jp.1.hp
          if 0 < jadDamage then reward + jadDamage * 0.2 else reward)
        reward
    let reward := reward - healerTargetingJadPenalty obs 0.3
    let reward := reward + healerTagReward obs prevObs
    match termination with
    | TerminationState.JAD_KILLED => reward + 100.0 - (episodeLength : Rat) * 0.1
    | TerminationState.PLAYER_DIED => reward - 200.0
    | TerminationState.ONGOING => reward

/-- The function registered under the name `sparse` (`rewards.ts` lines
155-164): +1 on all bosses defeated, -1 on player death, 0 otherwise. -/
def rewardFnSparse : RewardFunction := fun _obs _prevObs termination _episodeLength =>
  match termination with
  | TerminationState.JAD_KILLED => 1
  | TerminationState.PLAYER_DIED => -1
  | TerminationState.ONGOING => 0

/-- The function registered under the name `multijad` (`rewards.ts` lines
166-271).  The float `Infinity` sentinel seeding the lowest-health scan is
modelled as `Option.none` (it is only reachable when the boss list is
empty). -/
def rewardFnMultijad : RewardFunction := fun obs prevObs termination _episodeLength =>
  match prevObs with
  | none => 0
  | some prevObs =>
    let reward : Rat := 0
    let attackCount :=
      (prevObs.jads.zip obs.jads).foldl
        (fun n jp => if jp.1.attack ≠ 0 ∧ jp.2.attack = 0 then n + 1 else n)
        (0 : Nat)
    let prayerWrongPenalty : Rat := if 1 < attackCount then -1.5 else -3.0
    let reward := reward + prayerLandingReward obs prevObs 1.5 prayerWrongPenalty
    let reward := if obs.player_target = 0 then reward - 0.3 else reward
    let reward := if !obs.rigour_active then reward - 0.1 else reward
    let healersOnJad :=
      obs.healers.foldl
        (fun n healer => if healer.target = HealerTarget.JAD then n + 1 else n) (0 : Nat)
    let lowest :=
      ((List.range obs.jads.length).drop 1).foldl
        (fun (st : Option Rat × Nat) i =>
          match obs.jads.get? i with
          | none => st
          | some jad =>
            let isLower :=
              match st.1 with
              | none => true
              | some v => decide (jad.hp < v)
            if 0 < jad.hp ∧ isLower = true then (some jad.hp, i) else st)
        ((obs.jads.get? 0).map (fun j => j.hp), 0)
    let lowestHpJadIndex := lowest.2
    let healerMultiplier : Rat := if healersOnJad = 0 then 1.5 else 1.0
    let reward :=
      ((obs.jads.zip prevObs.jads).enum).foldl
        (fun reward ijp =>
          let jadDamage := ijp.2.2.hp - ijp.2.1.hp
          if 0 < jadDamage then
            let reward := reward + jadDamage * 0.3 * healerMultiplier
            if ijp.1 = lowestHpJadIndex ∧ 1 < obs.jads.length then
              reward + jadDamage * 0.2
            else reward
          else reward)
        reward
    let healerPenaltyPerHealer : Rat := 1.5 + (healersOnJad : Rat) * 0.3
    let reward := reward - (healersOnJad : Rat) * healerPenaltyPerHealer
    let reward := reward + healerTagReward obs prevObs * 3.0
    let reward :=
      if 0 < obs.healers.length ∧ healersOnJad = 0 then reward + 2.0 else reward
    let jadsKilled := jadKillReward obs prevObs 1.0
    let aliveJadsBefore := (prevObs.jads.filter (fun j => 0 < j.hp)).length
    let reward :=
      if 0 < jadsKilled then
        reward + 200.0 * ((aliveJadsBefore : Rat) / (obs.jads.length : Rat))
      else reward
    match termination with
    | TerminationState.JAD_KILLED => reward + 50.0
    | TerminationState.PLAYER_DIED =>
      let totalJadHpRemaining := obs.jads.foldl (fun sum jad => sum + jad.hp) 0
      let maxJadHp : Rat := (obs.jads.length : Rat) * 350
      let damageDealt := maxJadHp - totalJadHpRemaining
      let progressBonus := damageDealt * 0.1
      reward - 100.0 + progressBonus
    | TerminationState.ONGOING => reward

/-- The name → function registry (`rewards.ts` `REWARD_FUNCTIONS`), populated
by the three `registerRewardFunction` calls in registration order. -/
def REWARD_FUNCTIONS : List (String × RewardFunction) :=
  [("default", rewardFnDefault), ("sparse", rewardFnSparse), ("multijad", rewardFnMultijad)]

/-- `listRewardFunctions` (`rewards.ts` lines 16-18). -/
def listRewardFunctions : List String := REWARD_FUNCTIONS.map Prod.fst

/-- `computeReward` (`rewards.ts` lines 20-33): look the name up in the
registry; an unregistered name throws (modelled as `Except.error`). -/
def computeReward (obs : Observation) (prevObs : Option Observation)
    (termination : TerminationState) (episodeLength : Nat)
    (rewardFunc : String) : Except String Rat :=
  match REWARD_FUNCTIONS.lookup rewardFunc with
  | none =>
    Except.error
      ("Unknown reward function: " ++ rewardFunc ++ ". Available: "
        ++ String.intercalate ", " listRewardFunctions)
  | some fn => Except.ok (fn obs prevObs termination episodeLength)

/-- Player fields read by the termination check. -/
structure PlayerState where
  dying : Int
  hitpoint : Int
  deriving Repr, DecidableEq

/-- `TerminationResult` (`episode-state.ts`): the non-null results. -/
inductive TerminationResult where
  | player_died
  | jad_killed
  deriving Repr, DecidableEq

/-- Mutable episode bookkeeping of the `EpisodeState` class
(`episode-state.ts`). -/
structure EpisodeState where
  cumulativeReward : Rat
  episodeLength : Nat
  terminated : Bool
  terminationResult : Option TerminationResult
  deriving Repr, DecidableEq

/-- The all-bosses-defeated scan of `EpisodeState.checkTermination`
(`episode-state.ts` lines 108-115): no boss index holds a present boss with
positive health and a -1 dying counter. -/
def allJadsDead (cfg : JadConfig) (r : RegionState) : Bool :=
  (List.range cfg.jadCount).all fun (i : Nat) =>
    match getJad r (i : Int) with
    | some jad => !(decide (0 < jad.hitpoint) && decide (jad.dying = -1))
    | none => true

/-- `EpisodeState.checkTermination` (`episode-state.ts` lines 94-124): if the
episode is already terminated, return the cached result without looking at
the world; otherwise check player death, then all bosses defeated, caching a
terminal result in the state. -/
def checkTermination (s : EpisodeState) (cfg : JadConfig) (player : PlayerState)
    (r : RegionState) : EpisodeState × Option TerminationResult :=
  if s.terminated then (s, s.terminationResult)
  else if 0 < player.dying ∨ player.hitpoint ≤ 0 then
    ({ s with terminated := true, terminationResult := some TerminationResult.player_died },
      some TerminationResult.player_died)
  else if allJadsDead cfg r then
    ({ s with terminated := true, terminationResult := some TerminationResult.jad_killed },
      some TerminationResult.jad_killed)
  else (s, none)

/-- Runs `checkTermination` over a sequence of later world snapshots,
threading the episode state and collecting each call's result. -/
def runTerminationChecks (s : EpisodeState) (cfg : JadConfig) :
    List (PlayerState × RegionState) → EpisodeState × List (Option TerminationResult)
  | [] => (s, [])
  | (player, r) :: rest =>
    let step := checkTermination s cfg player r
    let tail := runTerminationChecks step.1 cfg rest
    (tail.1, step.2 :: tail.2)

/-- One rejection-sampling search of `Jad.damageTaken` (`jad.ts` lines
240-256): draw offsets from the random stream until one does not collide
(`Collision.collidesWithAnyMobs`, abstracted as a predicate over the
candidate position and the adds spawned earlier in this call), returning the
chosen absolute position and the unconsumed stream.  `none` models the
unbounded do-while never finding a free tile. -/
def findSpawnPosition (collides : Int × Int → List (Int × Int) → Bool)
    (jadLoc : Int × Int) (spawned : List (Int × Int)) :
    List (Int × Int) → Option ((Int × Int) × List (Int × Int))
  | [] => none
  | off :: rest =>
    let pos := (jadLoc.1 + off.1, jadLoc.2 + off.2)
    if collides pos spawned then findSpawnPosition collides jadLoc spawned rest
    else some (pos, rest)

/-- The spawn loop of `Jad.damageTaken` (`jad.ts` lines 240-265): spawn
`count` adds one after another, each at a freshly sampled non-colliding
position; every spawned add joins the region and so is visible to later
collision checks. -/
def spawnHealersLoop (collides : Int × Int → List (Int × Int) → Bool)
    (jadLoc : Int × Int) :
    Nat → List (Int × Int) → List (Int × Int) → Option (List (Int × Int))
  | 0, _, spawned => some spawned
  | n + 1, cands, spawned =>
    match findSpawnPosition collides jadLoc spawned cands with
    | none => none
    | some (pos, rest) => spawnHealersLoop collides jadLoc n rest (spawned ++ [pos])

/-- `Jad.damageTaken` (`jad.ts` lines 226-268): a no-op when the one-shot
flag is already set or health is still at or above half the maximum;
otherwise set the flag and spawn `healerCount` adds at rejection-sampled
non-colliding positions (which the region then registers).  Returns the
updated boss and the spawned add positions; `none` models a spawn search
that never terminates. -/
def damageTaken (jad : JadEnt) (collides : Int × Int → List (Int × Int) → Bool)
    (cands : List (Int × Int)) : Option (JadEnt × List (Int × Int)) :=
  if jad.hasProccedHealers then some (jad, [])
  else if (jad.statsHitpoint : Rat) / 2 ≤ (jad.hitpoint : Rat) then some (jad, [])
  else
    match spawnHealersLoop collides (jad.x, jad.y) jad.healerCount cands [] with
    | none => none
    | some positions => some ({ jad with hasProccedHealers := true }, positions)

/-- `parseJadConfig` validation (`headless/main.ts` lines 12-24), applied to
the two already-parsed integers: out-of-range values throw (modelled as
`Except.error`). -/
def parseJadConfig (jadCount healersPerJad : Int) : Except String (Int × Int) :=
  if jadCount < 1 ∨ 6 < jadCount then
    Except.error "JAD_COUNT must be 1-6"
  else if healersPerJad < 0 ∨ 5 < healersPerJad then
    Except.error "HEALERS_PER_JAD must be 0-5"
  else Except.ok (jadCount, healersPerJad)

/-- The hardcoded 1-6 boss spawn layouts (`jad-region.ts`
`JAD_SPAWN_POSITIONS`). -/
def JAD_SPAWN_POSITIONS : List (List (Int × Int)) :=
  [[(11, 22)],
   [(7, 22), (15, 22)],
   [(11, 22), (18, 15), (4, 15)],
   [(11, 22), (18, 15), (4, 15), (11, 8)],
   [(7, 22), (15, 22), (18, 15), (4, 15), (11, 8)],
   [(7, 22), (15, 22), (18, 15), (4, 15), (7, 8), (15, 8)]]

/-- Integer-indexed lookup mirroring JavaScript array access (`undefined`
for a negative or too-large index). -/
def listGetZ (l : List (List (Int × Int))) (i : Int) : Option (List (Int × Int)) :=
  if i < 0 then none else l.get? i.toNat

/-- The spawn-layout selection of `JadRegion.initialiseRegion`
(`jad-region.ts` line 269): `JAD_SPAWN_POSITIONS[jadCount - 1] ||
JAD_SPAWN_POSITIONS[0]` - an out-of-range boss count silently falls back to
the first (single-boss) layout. -/
def selectSpawnPositions (config : JadConfig) : List (Int × Int) :=
  (listGetZ JAD_SPAWN_POSITIONS ((config.jadCount : Int) - 1)).getD
    (JAD_SPAWN_POSITIONS.headD [])

/-- The `JadRegion` constructor (`jad-region.ts` lines 111-114): it only
stores the configuration - no validation, no failure path. -/
def JadRegionConstruct (config : JadConfig) : RegionState :=
  { config := config, jads := [], healersMap := [] }

/-- Flattened non-collision condition for a spawn batch: each position in the
list avoids collision given the positions spawned before it (the region grows
as the loop runs). -/
def SpawnedOk (collides : Int × Int → List (Int × Int) → Bool) :
    List (Int × Int) → List (Int × Int) → Prop
  | _, [] => True
  | ctx, p :: rest => collides p ctx = false ∧ SpawnedOk collides (ctx ++ [p]) rest

/-- A concrete all-empty observation used to instantiate reward theorems. -/
def obsWitness : Observation :=
  { player_hp := 99, player_prayer := 99, player_ranged := 99, player_defence := 99,
    player_location_x := 13, player_location_y := 13, player_target := 0,
    active_prayer := 0, rigour_active := false, jads := [], healers := [],
    healers_spawned := false, next_projectile_type := 0, next_projectile_ticks := 0,
    bastion_doses := 4, sara_brew_doses := 4, super_restore_doses := 4,
    starting_bastion_doses := 4, starting_sara_brew_doses := 4,
    starting_super_restore_doses := 4 }

/-- A fresh episode state. -/
def epWitness : EpisodeState :=
  { cumulativeReward := 0, episodeLength := 0, terminated := false,
    terminationResult := none }

/-- A dead player snapshot (dying counter started, health 0). -/
def deadPlayerWitness : PlayerState := { dying := 0, hitpoint := 0 }

/-- A live player snapshot. -/
def livePlayerWitness : PlayerState := { dying := -1, hitpoint := 99 }

/-- A live full-health boss. -/
def liveJadWitness : JadEnt :=
  { dying := -1, hitpoint := 350, statsHitpoint := 350, x := 11, y := 22,
    attackDelay := 8, attackStyle := "magic", hasProccedHealers := false,
    healerCount := 3 }

/-- A single-boss region with the boss alive. -/
def regionWitness : RegionState :=
  { config := { jadCount := 1, healersPerJad := 3 }, jads := [liveJadWitness],
    healersMap := [] }

/-- An empty two-boss region (before initialization). -/
def emptyRegion2Witness : RegionState :=
  { config := { jadCount := 2, healersPerJad := 3 }, jads := [], healersMap := [] }

/-- A boss at zero health whose dying counter has not started yet (the
one-tick engine gap). -/
def deadJadWitness : JadEnt := { liveJadWitness with hitpoint := 0 }

/-- A live healer. -/
def liveHealerWitness : HealerEnt :=
  { dying := -1, hitpoint := 75, x := 10, y := 20, aggroIsPlayer := false }

/-- A single-boss region whose boss is at zero health while a registered
healer is still alive. -/
def deadBossRegionWitness : RegionState :=
  { config := { jadCount := 1, healersPerJad := 3 }, jads := [deadJadWitness],
    healersMap := [(0, (some liveHealerWitness, none, none))] }

/-- A boss just below half health that has not spawned its adds yet. -/
def spawnJadWitness : JadEnt := { liveJadWitness with hitpoint := 170 }

/-- The same boss after its one-shot add spawn. -/
def spawnedJadWitness : JadEnt := { spawnJadWitness with hasProccedHealers := true }

/-- A one-boss one-add region with both alive, for mask soundness. -/
def maskRegionWitness : RegionState :=
  { config := { jadCount := 1, healersPerJad := 1 }, jads := [liveJadWitness],
    healersMap := [(0, (some liveHealerWitness, none, none))] }

/-- Concrete dose counts. -/
def doseObsWitness : DoseObs :=
  { bastion_doses := 1, super_restore_doses := 2, sara_brew_doses := 0 }

/-- A live boss with a given attack countdown and style. -/
def trackerJad (delay : Int) (style : String) : JadEnt :=
  { liveJadWitness with attackDelay := delay, attackStyle := style }

/-- A single-boss region snapshot with the boss at a given countdown and
style. -/
def trackerRegion (delay : Int) (style : String) : RegionState :=
  { config := { jadCount := 1, healersPerJad := 3 }, jads := [trackerJad delay style],
    healersMap := [] }

section Lemmas

lemma length_flatMap_range_map {α : Type} (f : Nat → Nat → α) (n m : Nat) :
    ((List.range n).flatMap fun j => (List.range m).map (f j)).length = n * m := by
  induction n with
  | zero => simp
  | succ k ih =>
    rw [List.range_succ]
    simp [ih, Nat.succ_mul]

lemma flatMap_range_map_get? {α : Type} (f : Nat → Nat → α) (n m j k : Nat)
    (hj : j < n) (hk : k < m) :
    ((List.range n).flatMap fun a => (List.range m).map (f a)).get? (j * m + k) =
      some (f j k) := by
  induction n with
  | zero => omega
  | succ t ih =>
    rw [List.range_succ, List.flatMap_append]
    rcases Nat.lt_or_ge j t with hjt | hjt
    · rw [List.get?_append]
      · exact ih hjt
      · rw [length_flatMap_range_map]
        have : j * m + k < (j + 1) * m := by
          calc j * m + k < j * m + m := by omega
          _ = (j + 1) * m := by ring
        have hjm : (j + 1) * m ≤ t * m := Nat.mul_le_mul_right m (by omega)
        omega
    · have hjt' : j = t := by omega
      subst hjt'
      rw [List.get?_append_right]
      · rw [length_flatMap_range_map]
        simp only [List.flatMap_cons, List.flatMap_nil, List.append_nil]
        have : j * m + k - j * m = k := by omega
        rw [this, List.get?_map, List.get?_range hk]
        rfl
      · rw [length_flatMap_range_map]
        omega

end Lemmas

/-- C9: for every valid configuration (bossCount in 1..6, addsPerBoss in
0..5), the target head size is 1 + N + N·H, the action-space dims are
[4, 2, 4, 1 + N + N·H], the observation's per-boss array always has length
N, and the flattened per-add array always has length N·H. -/
theorem c9_observation_and_head_sizes (cfg : JadConfig)
    (h1 : 1 ≤ cfg.jadCount) (h2 : cfg.jadCount ≤ 6) (h3 : cfg.healersPerJad ≤ 5) :
    getTargetHeadSize cfg = 1 + cfg.jadCount + cfg.jadCount * cfg.healersPerJad ∧
    getActionSpaceDims cfg =
      [4, 2, 4, 1 + cfg.jadCount + cfg.jadCount * cfg.healersPerJad] ∧
    (∀ (r : RegionState) (st : List JadAttackState),
      (buildJadStates r cfg st).length = cfg.jadCount) ∧
    (∀ r : RegionState,
      (buildHealerStates r cfg).1.length = cfg.jadCount * cfg.healersPerJad) := by
  refine ⟨rfl, rfl, ?_, ?_⟩
  · intro r st
    simp [buildJadStates]
  · intro r
    simp only [buildHealerStates]
    exact length_flatMap_range_map _ _ _

/-- C9 witness: the sizes at the concrete configuration (2 bosses, 3 adds
per boss) on a concrete region. -/
theorem c9_observation_and_head_sizes_witness :
    getTargetHeadSize { jadCount := 2, healersPerJad := 3 } = 9 ∧
    (buildJadStates emptyRegion2Witness { jadCount := 2, healersPerJad := 3 }
        []).length = 2 := by
  have h := c9_observation_and_head_sizes { jadCount := 2, healersPerJad := 3 }
    (by decide) (by decide) (by decide)
  exact ⟨h.1, h.2.2.1 emptyRegion2Witness []⟩

/-- C6: decoding the head-3 encoding of a boss index (1 + i) or of a
(bossIdx, addIdx) pair (1 + N + bossIdx·H + addIdx) with `executeTarget`'s
index arithmetic recovers exactly the original index or pair. -/
theorem c6_target_round_trip (cfg : JadConfig) :
    (∀ i : Nat, i < cfg.jadCount →
      executeTargetDecode (encodeJadTarget i) cfg = TargetResolution.jad i) ∧
    (∀ j k : Nat, j < cfg.jadCount → k < cfg.healersPerJad →
      executeTargetDecode (encodeHealerTarget cfg j k) cfg =
        TargetResolution.healer j k) := by
  constructor
  · intro i hi
    simp only [executeTargetDecode, encodeJadTarget, TARGET_NO_OP]
    rw [if_neg (by omega), if_pos (by omega)]
    simp
  · intro j k hj hk
    have hH : 0 < cfg.healersPerJad := by omega
    simp only [executeTargetDecode, encodeHealerTarget, TARGET_NO_OP]
    rw [if_neg (by omega), if_neg (by omega)]
    have harith :
        cfg.jadCount + j * cfg.healersPerJad + k + 1 - cfg.jadCount - 1 =
          cfg.healersPerJad * j + k := by
      rw [Nat.mul_comm]
      omega
    rw [harith, Nat.mul_add_div hH, Nat.mul_add_mod, Nat.div_eq_of_lt hk,
      Nat.mod_eq_of_lt hk, Nat.add_zero]

/-- C6 witness: the round trip at the concrete configuration (3 bosses, 2
adds per boss) for boss 2 and add (1, 1). -/
theorem c6_target_round_trip_witness :
    executeTargetDecode (encodeJadTarget 2) { jadCount := 3, healersPerJad := 2 } =
      TargetResolution.jad 2 ∧
    executeTargetDecode
        (encodeHealerTarget { jadCount := 3, healersPerJad := 2 } 1 1)
        { jadCount := 3, healersPerJad := 2 } =
      TargetResolution.healer 1 1 :=
  ⟨(c6_target_round_trip { jadCount := 3, healersPerJad := 2 }).1 2 (by decide),
   (c6_target_round_trip { jadCount := 3, healersPerJad := 2 }).2 1 1 (by decide)
     (by decide)⟩

/-- C7: `computeReward` with an unregistered reward-function name fails with
an error, for every observation, previous observation, termination state and
episode length; with the registered `sparse` function it returns exactly +1
on all-bosses-defeated, -1 on player-died, and 0 otherwise, independent of
observations and episode length. -/
theorem c7_compute_reward (obs : Observation) (prevObs : Option Observation)
    (t : TerminationState) (len : Nat) (name : String)
    (hname : REWARD_FUNCTIONS.lookup name = none) :
    (∃ msg, computeReward obs prevObs t len name = Except.error msg) ∧
    computeReward obs prevObs t len "sparse" =
      Except.ok
        (if t = TerminationState.JAD_KILLED then 1
         else if t = TerminationState.PLAYER_DIED then -1 else 0) := by
  constructor
  · exact ⟨_, by rw [computeReward, hname]⟩
  · have hlookup : REWARD_FUNCTIONS.lookup "sparse" = some rewardFnSparse := by rfl
    rw [computeReward, hlookup]
    cases t <;> rfl

/-- C7 witness: an unregistered name fails and `sparse` scores the three
termination states on a concrete observation. -/
theorem c7_compute_reward_witness :
    (∃ msg,
      computeReward obsWitness none TerminationState.ONGOING 0 "bogus" =
        Except.error msg) ∧
    computeReward obsWitness none TerminationState.JAD_KILLED 5 "sparse" =
      Except.ok 1 :=
  ⟨(c7_compute_reward obsWitness none TerminationState.ONGOING 0 "bogus"
      (by rfl)).1,
   (c7_compute_reward obsWitness none TerminationState.JAD_KILLED 5 "bogus"
      (by rfl)).2⟩

/-- C4: terminal states are sticky - once `EpisodeState.checkTermination`
returns a terminal result, every later check in the episode returns the same
result without consulting the world again (the state and results are
independent of all later player/region snapshots). -/
theorem c4_termination_sticky (s : EpisodeState) (cfg : JadConfig)
    (player : PlayerState) (r : RegionState) (res : TerminationResult)
    (h : (checkTermination s cfg player r).2 = some res) :
    ∀ laterWorlds : List (PlayerState × RegionState),
      runTerminationChecks (checkTermination s cfg player r).1 cfg laterWorlds =
        ((checkTermination s cfg player r).1, laterWorlds.map fun _ => some res) := by
  have hstate : (checkTermination s cfg player r).1.terminated = true ∧
      (checkTermination s cfg player r).1.terminationResult = some res := by
    unfold checkTermination at h ⊢
    by_cases h1 : s.terminated = true
    · rw [if_pos h1] at h ⊢
      exact ⟨h1, h⟩
    · rw [if_neg h1] at h ⊢
      by_cases h2 : 0 < player.dying ∨ player.hitpoint ≤ 0
      · rw [if_pos h2] at h ⊢
        obtain rfl : TerminationResult.player_died = res := by simpa using h
        exact ⟨rfl, rfl⟩
      · rw [if_neg h2] at h ⊢
        by_cases h3 : allJadsDead cfg r = true
        · rw [if_pos h3] at h ⊢
          obtain rfl : TerminationResult.jad_killed = res := by simpa using h
          exact ⟨rfl, rfl⟩
        · rw [if_neg h3] at h
          exact absurd h (by simp)
  generalize hs' : (checkTermination s cfg player r).1 = s' at hstate ⊢
  intro laterWorlds
  induction laterWorlds with
  | nil => rfl
  | cons world rest ih =>
    have hstep : checkTermination s' cfg world.1 world.2 = (s', some res) := by
      unfold checkTermination
      rw [if_pos hstate.1, hstate.2]
    simp [runTerminationChecks, hstep, ih]

/-- C4 witness: a check that reports player death, followed by two later
snapshots in which the player is alive again, still reports player death both
times with an unchanged episode state. -/
theorem c4_termination_sticky_witness :
    runTerminationChecks
        (checkTermination epWitness { jadCount := 1, healersPerJad := 3 }
          deadPlayerWitness regionWitness).1
        { jadCount := 1, healersPerJad := 3 }
        [(livePlayerWitness, regionWitness), (livePlayerWitness, regionWitness)] =
      ((checkTermination epWitness { jadCount := 1, healersPerJad := 3 }
          deadPlayerWitness regionWitness).1,
        [some TerminationResult.player_died, some TerminationResult.player_died]) :=
  c4_termination_sticky epWitness { jadCount := 1, healersPerJad := 3 }
    deadPlayerWitness regionWitness TerminationResult.player_died (by decide)
    [(livePlayerWitness, regionWitness), (livePlayerWitness, regionWitness)]

section LookupLemmas

lemma lookup_mem_of_eq_some {β : Type} (l : List (Int × β)) (a : Int) (b : β)
    (h : l.lookup a = some b) : (a, b) ∈ l := by
  induction l with
  | nil => simp [List.lookup] at h
  | cons p t ih =>
    obtain ⟨p1, p2⟩ := p
    by_cases hpa : a = p1
    · subst hpa
      simp only [List.lookup, beq_self_eq_true, Option.some.injEq] at h
      rw [← h]
      exact List.mem_cons_self _ _
    · have hbeq : (a == p1) = false := by simp [hpa]
      rw [List.lookup, hbeq] at h
      exact List.mem_cons_of_mem _ (ih h)

end LookupLemmas

/-- C3: `getJad(i)` is absent exactly when the index is out of the spawned
range or the boss is dying or at ≤ 0 health; and `getHealer(j,k)` is absent
whenever the parent boss is not alive (regardless of the add), as well as
when the add slot itself is empty or holds a dying / ≤ 0-health add.  The
hypotheses are the region invariants established by initialization and
registration: `_jads` holds one boss per configured index and `_healers`
keys are configured boss indices. -/
theorem c3_registry_absence (cfg : JadConfig) (s : RegionState)
    (hlen : s.jads.length = cfg.jadCount)
    (hkeys : ∀ p ∈ s.healersMap, 0 ≤ p.1 ∧ p.1 < (cfg.jadCount : Int)) :
    (∀ index : Int, getJad s index = none ↔
      (index < 0 ∨ (s.jads.length : Int) ≤ index ∨
        ∃ jad, s.jads.get? index.toNat = some jad ∧
          (jad.isDying = true ∨ jad.hitpoint ≤ 0))) ∧
    (∀ jadIndex healerIndex : Int, getJad s jadIndex = none →
      getHealer s jadIndex healerIndex = none) ∧
    (∀ jadIndex healerIndex : Int,
      ((s.healersMap.lookup jadIndex).bind (fun t => t.get healerIndex) = none →
        getHealer s jadIndex healerIndex = none) ∧
      (∀ healer,
        (s.healersMap.lookup jadIndex).bind (fun t => t.get healerIndex) =
          some healer →
        healer.isDying = true ∨ healer.hitpoint ≤ 0 →
        getHealer s jadIndex healerIndex = none)) := by
  have parentCond : ∀ jadIndex : Int,
      getHealer s jadIndex = fun healerIndex =>
        if (match (if 0 ≤ jadIndex then s.jads.get? jadIndex.toNat else none) with
            | some jad => jad.isDying || decide (jad.hitpoint ≤ 0)
            | none => false) = true then none
        else
          match s.healersMap.lookup jadIndex with
          | none => none
          | some tuple =>
            if healerIndex < 0 ∨ 3 ≤ healerIndex then none
            else
              match tuple.get healerIndex with
              | none => none
              | some healer =>
                if healer.isDying = true ∨ healer.hitpoint ≤ 0 then none
                else some healer := by
    intro jadIndex
    rfl
  refine ⟨?_, ?_, ?_⟩
  · intro index
    by_cases hb : index < 0 ∨ (s.jads.length : Int) ≤ index
    · have hgj : getJad s index = none := by
        unfold getJad
        rw [if_pos hb]
      rw [hgj]
      exact iff_of_true rfl (by tauto)
    · push_neg at hb
      have hidx : index.toNat < s.jads.length := by omega
      obtain ⟨jad, hjad⟩ : ∃ jad, s.jads.get? index.toNat = some jad :=
        ⟨_, List.get?_eq_get hidx⟩
      have hgj : getJad s index =
          if jad.isDying = true ∨ jad.hitpoint ≤ 0 then none else some jad := by
        unfold getJad
        rw [if_neg (by omega), hjad]
      rw [hgj]
      by_cases hdead : jad.isDying = true ∨ jad.hitpoint ≤ 0
      · rw [if_pos hdead]
        exact iff_of_true rfl (Or.inr (Or.inr ⟨jad, hjad, hdead⟩))
      · rw [if_neg hdead]
        apply iff_of_false (Option.some_ne_none jad)
        push_neg
        refine ⟨by omega, by omega, ?_⟩
        intro jad' hjad'
        rw [hjad] at hjad'
        injection hjad' with hj
        rw [← hj]
        push_neg at hdead
        exact hdead
  · intro jadIndex healerIndex hnone
    rw [congrFun (parentCond jadIndex) healerIndex]
    by_cases h0 : 0 ≤ jadIndex
    · by_cases hr : jadIndex < (s.jads.length : Int)
      · have hidx : jadIndex.toNat < s.jads.length := by omega
        obtain ⟨jad, hjad⟩ : ∃ jad, s.jads.get? jadIndex.toNat = some jad :=
          ⟨_, List.get?_eq_get hidx⟩
        have hgj : getJad s jadIndex =
            if jad.isDying = true ∨ jad.hitpoint ≤ 0 then none else some jad := by
          unfold getJad
          rw [if_neg (by omega), hjad]
        rw [hgj] at hnone
        have hdeadp : jad.isDying = true ∨ jad.hitpoint ≤ 0 := by
          by_contra hcon
          rw [if_neg hcon] at hnone
          exact Option.some_ne_none jad hnone
        have hcond :
            (match (if 0 ≤ jadIndex then s.jads.get? jadIndex.toNat else none) with
              | some jad => jad.isDying || decide (jad.hitpoint ≤ 0)
              | none => false) = true := by
          rw [if_pos h0, hjad]
          rcases hdeadp with h | h
          · simp [h]
          · simp [h]
        rw [if_pos hcond]
      · have hlk : s.healersMap.lookup jadIndex = none := by
          cases hlk : s.healersMap.lookup jadIndex with
          | none => rfl
          | some tuple =>
            have := hkeys _ (lookup_mem_of_eq_some _ _ _ hlk)
            simp only at this
            omega
        have hget : s.jads.get? jadIndex.toNat = none := by
          rw [List.get?_eq_none]
          omega
        have hcond :
            (match (if 0 ≤ jadIndex then s.jads.get? jadIndex.toNat else none) with
              | some jad => jad.isDying || decide (jad.hitpoint ≤ 0)
              | none => false) = false := by
          rw [if_pos h0, hget]
        rw [hcond, if_neg (by simp), hlk]
    · have hlk : s.healersMap.lookup jadIndex = none := by
        cases hlk : s.healersMap.lookup jadIndex with
        | none => rfl
        | some tuple =>
          have := hkeys _ (lookup_mem_of_eq_some _ _ _ hlk)
          simp only at this
          omega
      have hcond :
          (match (if 0 ≤ jadIndex then s.jads.get? jadIndex.toNat else none) with
            | some jad => jad.isDying || decide (jad.hitpoint ≤ 0)
            | none => false) = false := by
        rw [if_neg h0]
      rw [hcond, if_neg (by simp), hlk]
  · intro jadIndex healerIndex
    constructor
    · intro hslot
      rw [congrFun (parentCond jadIndex) healerIndex]
      by_cases hpd :
          (match (if 0 ≤ jadIndex then s.jads.get? jadIndex.toNat else none) with
            | some jad => jad.isDying || decide (jad.hitpoint ≤ 0)
            | none => false) = true
      · rw [if_pos hpd]
      · rw [if_neg hpd]
        cases hlk : s.healersMap.lookup jadIndex with
        | none => rfl
        | some tuple =>
          rw [hlk, Option.some_bind] at hslot
          dsimp only
          by_cases hbound : healerIndex < 0 ∨ 3 ≤ healerIndex
          · rw [if_pos hbound]
          · rw [if_neg hbound, hslot]
    · intro healer hslot hdead
      rw [congrFun (parentCond jadIndex) healerIndex]
      by_cases hpd :
          (match (if 0 ≤ jadIndex then s.jads.get? jadIndex.toNat else none) with
            | some jad => jad.isDying || decide (jad.hitpoint ≤ 0)
            | none => false) = true
      · rw [if_pos hpd]
      · rw [if_neg hpd]
        cases hlk : s.healersMap.lookup jadIndex with
        | none => rfl
        | some tuple =>
          rw [hlk, Option.some_bind] at hslot
          dsimp only
          by_cases hbound : healerIndex < 0 ∨ 3 ≤ healerIndex
          · rw [if_pos hbound]
          · rw [if_neg hbound, hslot]
            dsimp only
            rw [if_pos hdead]

/-- C3 witness: in a region whose only boss is at zero health (dying counter
not yet started) with a live registered healer, the boss reads absent and so
does the healer, purely because the parent is not alive. -/
theorem c3_registry_absence_witness :
    getJad deadBossRegionWitness 0 = none ∧
    getHealer deadBossRegionWitness 0 0 = none :=
  ⟨by decide,
   (c3_registry_absence { jadCount := 1, healersPerJad := 3 }
      deadBossRegionWitness (by decide) (by decide)).2.1 0 0 (by decide)⟩

/-- C10: absent entities are reported as fully zeroed placeholder slots -
when the registry reports a boss absent, the observation entry at its index
is exactly `{hp 0, attack 0, x 0, y 0, alive false}`, and when an add is
absent its flattened entry is exactly `{hp 0, x 0, y 0, NOT_PRESENT}`. -/
theorem c10_absent_entities_zeroed (r : RegionState) (cfg : JadConfig)
    (st : List JadAttackState) :
    (∀ i : Nat, i < cfg.jadCount → getJad r (i : Int) = none →
      (buildJadStates r cfg st).get? i =
        some { hp := 0, attack := 0, x := 0, y := 0, alive := false }) ∧
    (∀ j k : Nat, j < cfg.jadCount → k < cfg.healersPerJad →
      getHealer r (j : Int) (k : Int) = none →
      (buildHealerStates r cfg).1.get? (j * cfg.healersPerJad + k) =
        some { hp := 0, x := 0, y := 0, aggro := HealerAggro.NOT_PRESENT }) := by
  constructor
  · intro i hi hnone
    unfold buildJadStates
    rw [List.get?_map, List.get?_range hi]
    simp [hnone]
  · intro j k hj hk hnone
    have hflat := flatMap_range_map_get?
      (fun (jadIdx : Nat) (healerIdx : Nat) =>
        match getHealer r (jadIdx : Int) (healerIdx : Int) with
        | some healer =>
          ({ hp := healer.hitpoint, x := healer.x, y := healer.y,
             aggro := getHealerAggro r (jadIdx : Int) (healerIdx : Int) } : HealerState)
        | none => { hp := 0, x := 0, y := 0, aggro := HealerAggro.NOT_PRESENT })
      cfg.jadCount cfg.healersPerJad j k hj hk
    unfold buildHealerStates
    simp only
    rw [hflat]
    simp [hnone]

/-- C10 witness: with the boss dead, boss slot 0 and add slot (0,1) are the
exact zero placeholders. -/
theorem c10_absent_entities_zeroed_witness :
    (buildJadStates deadBossRegionWitness { jadCount := 1, healersPerJad := 3 }
        []).get? 0 =
      some { hp := 0, attack := 0, x := 0, y := 0, alive := false } ∧
    (buildHealerStates deadBossRegionWitness
        { jadCount := 1, healersPerJad := 3 }).1.get? 1 =
      some { hp := 0, x := 0, y := 0, aggro := HealerAggro.NOT_PRESENT } :=
  ⟨(c10_absent_entities_zeroed deadBossRegionWitness
      { jadCount := 1, healersPerJad := 3 } []).1 0 (by decide) (by decide),
   (c10_absent_entities_zeroed deadBossRegionWitness
      { jadCount := 1, healersPerJad := 3 } []).2 0 1 (by decide) (by decide)
     (by decide)⟩

section SpawnLemmas

lemma findSpawnPosition_spec (collides : Int × Int → List (Int × Int) → Bool)
    (jadLoc : Int × Int) (spawned : List (Int × Int)) :
    ∀ (cands : List (Int × Int)) (pos : Int × Int) (rest : List (Int × Int)),
      findSpawnPosition collides jadLoc spawned cands = some (pos, rest) →
      collides pos spawned = false := by
  intro cands
  induction cands with
  | nil => intro pos rest h; simp [findSpawnPosition] at h
  | cons off t ih =>
    intro pos rest h
    rw [findSpawnPosition] at h
    by_cases hc : collides (jadLoc.1 + off.1, jadLoc.2 + off.2) spawned = true
    · rw [if_pos hc] at h
      exact ih pos rest h
    · rw [if_neg hc] at h
      simp only [Option.some.injEq, Prod.mk.injEq] at h
      rw [← h.1]
      simpa using hc

lemma spawnHealersLoop_spec (collides : Int × Int → List (Int × Int) → Bool)
    (jadLoc : Int × Int) :
    ∀ (count : Nat) (cands spawned positions : List (Int × Int)),
      spawnHealersLoop collides jadLoc count cands spawned = some positions →
      ∃ news, positions = spawned ++ news ∧ news.length = count ∧
        SpawnedOk collides spawned news := by
  intro count
  induction count with
  | zero =>
    intro cands spawned positions h
    rw [spawnHealersLoop] at h
    simp only [Option.some.injEq] at h
    exact ⟨[], by simp [← h], rfl, trivial⟩
  | succ n ih =>
    intro cands spawned positions h
    rw [spawnHealersLoop] at h
    cases hf : findSpawnPosition collides jadLoc spawned cands with
    | none => rw [hf] at h; exact absurd h (by simp)
    | some posRest =>
      obtain ⟨pos, rest⟩ := posRest
      rw [hf] at h
      obtain ⟨news', hpos, hlen, hok⟩ := ih rest (spawned ++ [pos]) positions h
      refine ⟨pos :: news', ?_, by simpa using hlen, ?_⟩
      · rw [hpos, List.append_assoc]
        rfl
      · exact ⟨findSpawnPosition_spec collides jadLoc spawned cands pos rest hf, hok⟩

end SpawnLemmas

/-- C5: the add spawn is a one-shot triggered at the 50% health crossing.
If the one-shot flag is set, or health is still at or above half the
maximum, nothing is spawned; on the first crossing (flag clear, health below
half) a successful spawn produces exactly `healerCount` adds, each at a
position that does not collide given the region contents at its spawn time,
sets the flag, and every later call - at any health, including after healing
back above half and crossing again - spawns nothing further. -/
theorem c5_add_spawn_one_shot (jad : JadEnt)
    (collides : Int × Int → List (Int × Int) → Bool) (cands : List (Int × Int)) :
    (jad.hasProccedHealers = true → damageTaken jad collides cands = some (jad, [])) ∧
    ((jad.statsHitpoint : Rat) / 2 ≤ (jad.hitpoint : Rat) →
      damageTaken jad collides cands = some (jad, [])) ∧
    (∀ (jadAfter : JadEnt) (positions : List (Int × Int)),
      jad.hasProccedHealers = false →
      (jad.hitpoint : Rat) < (jad.statsHitpoint : Rat) / 2 →
      damageTaken jad collides cands = some (jadAfter, positions) →
      positions.length = jad.healerCount ∧
      SpawnedOk collides [] positions ∧
      jadAfter.hasProccedHealers = true ∧
      (∀ (hp2 : Int) (collides2 : Int × Int → List (Int × Int) → Bool)
          (cands2 : List (Int × Int)),
        damageTaken { jadAfter with hitpoint := hp2 } collides2 cands2 =
          some ({ jadAfter with hitpoint := hp2 }, []))) := by
  refine ⟨?_, ?_, ?_⟩
  · intro hflag
    unfold damageTaken
    rw [if_pos hflag]
  · intro hhp
    unfold damageTaken
    by_cases hflag : jad.hasProccedHealers = true
    · rw [if_pos hflag]
    · rw [if_neg hflag, if_pos hhp]
  · intro jadAfter positions hflag hhp hdt
    unfold damageTaken at hdt
    rw [if_neg (by rw [hflag]; exact Bool.false_ne_true),
      if_neg (not_le.mpr hhp)] at hdt
    cases hsp : spawnHealersLoop collides (jad.x, jad.y) jad.healerCount cands [] with
    | none => rw [hsp] at hdt; exact absurd hdt (by simp)
    | some ps =>
      rw [hsp] at hdt
      simp only [Option.some.injEq, Prod.mk.injEq] at hdt
      obtain ⟨hjad, hps⟩ := hdt
      obtain ⟨news, hpos, hlen, hok⟩ :=
        spawnHealersLoop_spec collides (jad.x, jad.y) jad.healerCount cands [] ps hsp
      simp only [List.nil_append] at hpos
      subst hpos
      refine ⟨?_, ?_, ?_, ?_⟩
      · rw [← hps]; exact hlen
      · rw [← hps]; exact hok
      · rw [← hjad]
      · intro hp2 collides2 cands2
        unfold damageTaken
        rw [if_pos ?_]
        rw [← hjad]

/-- C5 witness: a boss at 170/350 health with 3 configured adds and a
collision-free arena spawns exactly 3 adds at the first three sampled
positions, after which a repeat call spawns nothing. -/
theorem c5_add_spawn_one_shot_witness :
    ([((12 : Int), (23 : Int)), (13, 24), (14, 25)].length =
      spawnJadWitness.healerCount) ∧
    SpawnedOk (fun _ _ => false) [] [((12 : Int), (23 : Int)), (13, 24), (14, 25)] ∧
    spawnedJadWitness.hasProccedHealers = true ∧
    damageTaken { spawnedJadWitness with hitpoint := 350 } (fun _ _ => false) [] =
      some ({ spawnedJadWitness with hitpoint := 350 }, []) := by
  have hhp : (spawnJadWitness.hitpoint : Rat) <
      (spawnJadWitness.statsHitpoint : Rat) / 2 := by
    norm_num [spawnJadWitness, liveJadWitness]
  have hdt : damageTaken spawnJadWitness (fun _ _ => false) [(1, 1), (2, 2), (3, 3)] =
      some (spawnedJadWitness, [(12, 23), (13, 24), (14, 25)]) := by
    unfold damageTaken
    rw [if_neg (by decide), if_neg (not_le.mpr hhp)]
    rfl
  have h := (c5_add_spawn_one_shot spawnJadWitness (fun _ _ => false)
      [(1, 1), (2, 2), (3, 3)]).2.2 spawnedJadWitness
      [(12, 23), (13, 24), (14, 25)] (by decide) hhp hdt
  exact ⟨h.1, h.2.1, h.2.2.1, h.2.2.2 350 (fun _ _ => false) []⟩

section FoldSetLemmas

lemma foldl_update_length {α : Type} (F : Nat → List α → List α)
    (hlen : ∀ i acc, (F i acc).length = acc.length) (l : List Nat) (m : List α) :
    (l.foldl (fun acc i => F i acc) m).length = m.length := by
  induction l generalizing m with
  | nil => rfl
  | cons a t ih => rw [List.foldl_cons, ih, hlen]

lemma foldl_update_get?_miss {α : Type} (F : Nat → List α → List α) (t : Nat)
    (l : List Nat) (m : List α)
    (hmiss : ∀ i ∈ l, ∀ acc, (F i acc).get? t = acc.get? t) :
    (l.foldl (fun acc i => F i acc) m).get? t = m.get? t := by
  induction l generalizing m with
  | nil => rfl
  | cons a tl ih =>
    rw [List.foldl_cons, ih _ fun i hi acc => hmiss i (List.mem_cons_of_mem a hi) acc,
      hmiss a (List.mem_cons_self a tl) m]

lemma foldl_range_update_get?_hit {α : Type} (F : Nat → List α → List α)
    (n t j : Nat) (m : List α) (val : α) (hj : j < n)
    (hlen : ∀ i acc, (F i acc).length = acc.length)
    (hmiss : ∀ i, i < n → i ≠ j → ∀ acc, (F i acc).get? t = acc.get? t)
    (hhit : ∀ acc, acc.length = m.length → (F j acc).get? t = some val) :
    ((List.range n).foldl (fun acc i => F i acc) m).get? t = some val := by
  induction n with
  | zero => omega
  | succ k ih =>
    rw [List.range_succ, List.foldl_append]
    rcases Nat.lt_or_ge j k with hjk | hjk
    · rw [List.foldl_cons, List.foldl_nil,
        hmiss k (by omega) (by omega) _]
      exact ih hjk fun i hik hij acc => hmiss i (by omega) hij acc
    · have hjeq : j = k := by omega
      subst hjeq
      rw [List.foldl_cons, List.foldl_nil]
      exact hhit _ (foldl_update_length F hlen _ m)

end FoldSetLemmas

section MaskLemmas

lemma mul_add_lt_mul {j k H N : Nat} (hj : j < N) (hk : k < H) :
    j * H + k < N * H := by
  calc j * H + k < j * H + H := by omega
  _ = (j + 1) * H := by ring
  _ ≤ N * H := Nat.mul_le_mul_right H (by omega)

lemma flat_index_inj {j k j' k' H : Nat} (hk : k < H) (hk' : k' < H)
    (h : j * H + k = j' * H + k') : j = j' ∧ k = k' := by
  have hH : 0 < H := by omega
  have e1 : (j * H + k) / H = j := by
    rw [Nat.mul_comm, Nat.mul_add_div hH, Nat.div_eq_of_lt hk, Nat.add_zero]
  have e2 : (j' * H + k') / H = j' := by
    rw [Nat.mul_comm, Nat.mul_add_div hH, Nat.div_eq_of_lt hk', Nat.add_zero]
  have e3 : (j * H + k) % H = k := by
    rw [Nat.mul_comm, Nat.mul_add_mod, Nat.mod_eq_of_lt hk]
  have e4 : (j' * H + k') % H = k' := by
    rw [Nat.mul_comm, Nat.mul_add_mod, Nat.mod_eq_of_lt hk']
  constructor
  · rw [← e1, ← e2, h]
  · rw [← e3, ← e4, h]

/-- Reading back a boss entry after the two target-mask write loops. -/
lemma jadHealerFolds_get?_jad (r : RegionState) (cfg : JadConfig)
    (base : List Bool) (i : Nat) (hi : i < cfg.jadCount)
    (hlen : 1 + cfg.jadCount ≤ base.length) :
    ((List.range cfg.jadCount).foldl
        (fun m (jadIdx : Nat) =>
          (List.range cfg.healersPerJad).foldl
            (fun m (healerIdx : Nat) =>
              m.set (1 + cfg.jadCount + jadIdx * cfg.healersPerJad + healerIdx)
                (getHealer r (jadIdx : Int) (healerIdx : Int)).isSome)
            m)
        ((List.range cfg.jadCount).foldl
          (fun m (i : Nat) => m.set (1 + i) (getJad r (i : Int)).isSome)
          base)).get? (1 + i) =
      some (getJad r (i : Int)).isSome := by
  rw [foldl_update_get?_miss]
  · apply foldl_range_update_get?_hit
      (fun (i' : Nat) acc => acc.set (1 + i') (getJad r (i' : Int)).isSome)
      cfg.jadCount (1 + i) i _ _ hi
    · intro i' acc
      exact List.length_set acc _ _
    · intro i' hi' hne acc
      exact List.get?_set_ne _ _ (by omega)
    · intro acc hl
      apply List.get?_set_eq_of_lt
      rw [hl]
      omega
  · intro jadIdx hjad acc
    apply foldl_update_get?_miss
    intro healerIdx hh acc'
    exact List.get?_set_ne _ _ (by omega)

/-- Reading back an add entry after the two target-mask write loops. -/
lemma jadHealerFolds_get?_healer (r : RegionState) (cfg : JadConfig)
    (base : List Bool) (j k : Nat) (hj : j < cfg.jadCount)
    (hk : k < cfg.healersPerJad)
    (hlen : 1 + cfg.jadCount + cfg.jadCount * cfg.healersPerJad ≤ base.length) :
    ((List.range cfg.jadCount).foldl
        (fun m (jadIdx : Nat) =>
          (List.range cfg.healersPerJad).foldl
            (fun m (healerIdx : Nat) =>
              m.set (1 + cfg.jadCount + jadIdx * cfg.healersPerJad + healerIdx)
                (getHealer r (jadIdx : Int) (healerIdx : Int)).isSome)
            m)
        ((List.range cfg.jadCount).foldl
          (fun m (i : Nat) => m.set (1 + i) (getJad r (i : Int)).isSome)
          base)).get? (1 + cfg.jadCount + j * cfg.healersPerJad + k) =
      some (getHealer r (j : Int) (k : Int)).isSome := by
  apply foldl_range_update_get?_hit
    (fun (jadIdx : Nat) acc =>
      (List.range cfg.healersPerJad).foldl
        (fun m (healerIdx : Nat) =>
          m.set (1 + cfg.jadCount + jadIdx * cfg.healersPerJad + healerIdx)
            (getHealer r (jadIdx : Int) (healerIdx : Int)).isSome)
        acc)
    cfg.jadCount (1 + cfg.jadCount + j * cfg.healersPerJad + k) j _ _ hj
  · intro jadIdx acc
    apply foldl_update_length
    intro healerIdx acc'
    exact List.length_set acc' _ _
  · intro jadIdx hjad hne acc
    apply foldl_update_get?_miss
    intro healerIdx hh acc'
    apply List.get?_set_ne
    intro hcontra
    have hh' : healerIdx < cfg.healersPerJad := List.mem_range.mp hh
    have := flat_index_inj hh' hk
      (show jadIdx * cfg.healersPerJad + healerIdx =
          j * cfg.healersPerJad + k by omega)
    exact hne this.1
  · intro acc hl
    apply foldl_range_update_get?_hit
      (fun (healerIdx : Nat) acc' =>
        acc'.set (1 + cfg.jadCount + j * cfg.healersPerJad + healerIdx)
          (getHealer r (j : Int) (healerIdx : Int)).isSome)
      cfg.healersPerJad (1 + cfg.jadCount + j * cfg.healersPerJad + k) k _ _ hk
    · intro healerIdx acc'
      exact List.length_set acc' _ _
    · intro healerIdx hh hne acc'
      exact List.get?_set_ne _ _ (by omega)
    · intro acc' hl'
      apply List.get?_set_eq_of_lt
      rw [hl', hl]
      rw [foldl_update_length _ fun i' a => List.length_set a _ _]
      have hlt : j * cfg.healersPerJad + k <
          cfg.jadCount * cfg.healersPerJad := mul_add_lt_mul hj hk
      omega

/-- The trailing seven prayer/potion writes of the legacy mask do not touch
target entries. -/
lemma legacy_mask_target_get? (r : RegionState) (cfg : JadConfig) (obs : DoseObs)
    (t : Nat) (ht : t < 1 + cfg.jadCount + cfg.jadCount * cfg.healersPerJad) :
    (buildValidActionMaskLegacy r cfg obs).get? t =
      ((List.range cfg.jadCount).foldl
        (fun m (jadIdx : Nat) =>
          (List.range cfg.healersPerJad).foldl
            (fun m (healerIdx : Nat) =>
              m.set (1 + cfg.jadCount + jadIdx * cfg.healersPerJad + healerIdx)
                (getHealer r (jadIdx : Int) (healerIdx : Int)).isSome)
            m)
        ((List.range cfg.jadCount).foldl
          (fun m (i : Nat) => m.set (1 + i) (getJad r (i : Int)).isSome)
          ((List.replicate (getActionSpaceSize cfg) false).set 0 true))).get? t := by
  show ((((((((_ : List Bool).set _ _).set _ _).set _ _).set _ _).set _ _).set
      _ _).set _ _).get? t = _
  rw [List.get?_set_ne _ _ (by omega), List.get?_set_ne _ _ (by omega),
    List.get?_set_ne _ _ (by omega), List.get?_set_ne _ _ (by omega),
    List.get?_set_ne _ _ (by omega), List.get?_set_ne _ _ (by omega),
    List.get?_set_ne _ _ (by omega)]

/-- Length of the legacy mask's write target after the two loops. -/
lemma legacy_mask_folds_length (r : RegionState) (cfg : JadConfig) :
    ((List.range cfg.jadCount).foldl
        (fun m (jadIdx : Nat) =>
          (List.range cfg.healersPerJad).foldl
            (fun m (healerIdx : Nat) =>
              m.set (1 + cfg.jadCount + jadIdx * cfg.healersPerJad + healerIdx)
                (getHealer r (jadIdx : Int) (healerIdx : Int)).isSome)
            m)
        ((List.range cfg.jadCount).foldl
          (fun m (i : Nat) => m.set (1 + i) (getJad r (i : Int)).isSome)
          ((List.replicate (getActionSpaceSize cfg) false).set 0 true))).length =
      getActionSpaceSize cfg := by
  rw [foldl_update_length _
      (fun jadIdx acc => foldl_update_length _
        (fun healerIdx acc' => List.length_set acc' _ _) _ _) _ _,
    foldl_update_length _ (fun i acc => List.length_set acc _ _) _ _,
    List.length_set, List.length_replicate]

/-- Read-back of the three dose-gated potion entries of the legacy mask. -/
lemma legacy_mask_potion_get? (r : RegionState) (cfg : JadConfig) (obs : DoseObs) :
    (buildValidActionMaskLegacy r cfg obs).get?
        (1 + cfg.jadCount + cfg.jadCount * cfg.healersPerJad + 4) =
      some (decide (0 < obs.bastion_doses)) ∧
    (buildValidActionMaskLegacy r cfg obs).get?
        (1 + cfg.jadCount + cfg.jadCount * cfg.healersPerJad + 5) =
      some (decide (0 < obs.super_restore_doses)) ∧
    (buildValidActionMaskLegacy r cfg obs).get?
        (1 + cfg.jadCount + cfg.jadCount * cfg.healersPerJad + 6) =
      some (decide (0 < obs.sara_brew_doses)) := by
  have hlen4 :
      ((((((List.range cfg.jadCount).foldl
          (fun m (jadIdx : Nat) =>
            (List.range cfg.healersPerJad).foldl
              (fun m (healerIdx : Nat) =>
                m.set (1 + cfg.jadCount + jadIdx * cfg.healersPerJad + healerIdx)
                  (getHealer r (jadIdx : Int) (healerIdx : Int)).isSome)
              m)
          ((List.range cfg.jadCount).foldl
            (fun m (i : Nat) => m.set (1 + i) (getJad r (i : Int)).isSome)
            ((List.replicate (getActionSpaceSize cfg) false).set 0 true))).set
          (1 + cfg.jadCount + cfg.jadCount * cfg.healersPerJad + 0) true).set
          (1 + cfg.jadCount + cfg.jadCount * cfg.healersPerJad + 1) true).set
          (1 + cfg.jadCount + cfg.jadCount * cfg.healersPerJad + 2) true).set
          (1 + cfg.jadCount + cfg.jadCount * cfg.healersPerJad + 3) true).length =
        getActionSpaceSize cfg := by
    rw [List.length_set, List.length_set, List.length_set, List.length_set,
      legacy_mask_folds_length]
  refine ⟨?_, ?_, ?_⟩
  · show ((((_ : List Bool).set _ _).set _ _).set _ _).get? _ = _
    rw [List.get?_set_ne _ _ (by omega), List.get?_set_ne _ _ (by omega)]
    apply List.get?_set_eq_of_lt
    rw [hlen4]
    show _ < 1 + cfg.jadCount + cfg.jadCount * cfg.healersPerJad + 7
    omega
  · show ((((_ : List Bool).set _ _).set _ _).set _ _).get? _ = _
    rw [List.get?_set_ne _ _ (by omega)]
    apply List.get?_set_eq_of_lt
    rw [List.length_set, hlen4]
    show _ < 1 + cfg.jadCount + cfg.jadCount * cfg.healersPerJad + 7
    omega
  · apply List.get?_set_eq_of_lt
    rw [List.length_set, List.length_set, hlen4]
    show _ < 1 + cfg.jadCount + cfg.jadCount * cfg.healersPerJad + 7
    omega

end MaskLemmas

/-- C2: mask soundness - every entry either mask marks `true` corresponds to
something present.  For the multi-head mask and for the legacy flattened
mask: a target entry for boss `i` is true only if `getJad i` is non-absent,
a target entry for add `(j,k)` only if `getHealer j k` is non-absent, and a
potion entry only if that consumable's dose count is positive. -/
theorem c2_mask_soundness (r : RegionState) (cfg : JadConfig) (obs : DoseObs) :
    (∀ i : Nat, i < cfg.jadCount →
      ((buildValidActionMask r cfg obs).getD 3 []).get? (1 + i) = some true →
      (getJad r (i : Int)).isSome = true) ∧
    (∀ j k : Nat, j < cfg.jadCount → k < cfg.healersPerJad →
      ((buildValidActionMask r cfg obs).getD 3 []).get?
          (1 + cfg.jadCount + j * cfg.healersPerJad + k) = some true →
      (getHealer r (j : Int) (k : Int)).isSome = true) ∧
    (((buildValidActionMask r cfg obs).getD 2 []).get? 1 = some true →
      0 < obs.bastion_doses) ∧
    (((buildValidActionMask r cfg obs).getD 2 []).get? 2 = some true →
      0 < obs.super_restore_doses) ∧
    (((buildValidActionMask r cfg obs).getD 2 []).get? 3 = some true →
      0 < obs.sara_brew_doses) ∧
    (∀ i : Nat, i < cfg.jadCount →
      (buildValidActionMaskLegacy r cfg obs).get? (1 + i) = some true →
      (getJad r (i : Int)).isSome = true) ∧
    (∀ j k : Nat, j < cfg.jadCount → k < cfg.healersPerJad →
      (buildValidActionMaskLegacy r cfg obs).get?
          (1 + cfg.jadCount + j * cfg.healersPerJad + k) = some true →
      (getHealer r (j : Int) (k : Int)).isSome = true) ∧
    ((buildValidActionMaskLegacy r cfg obs).get?
        (1 + cfg.jadCount + cfg.jadCount * cfg.healersPerJad + 4) = some true →
      0 < obs.bastion_doses) ∧
    ((buildValidActionMaskLegacy r cfg obs).get?
        (1 + cfg.jadCount + cfg.jadCount * cfg.healersPerJad + 5) = some true →
      0 < obs.super_restore_doses) ∧
    ((buildValidActionMaskLegacy r cfg obs).get?
        (1 + cfg.jadCount + cfg.jadCount * cfg.healersPerJad + 6) = some true →
      0 < obs.sara_brew_doses) := by
  have hbase1 : ((List.replicate (getTargetHeadSize cfg) false).set 0 true).length =
      1 + cfg.jadCount + cfg.jadCount * cfg.healersPerJad := by
    rw [List.length_set, List.length_replicate]
    rfl
  have hbase2 : ((List.replicate (getActionSpaceSize cfg) false).set 0 true).length =
      1 + cfg.jadCount + cfg.jadCount * cfg.healersPerJad + 7 := by
    rw [List.length_set, List.length_replicate]
    rfl
  refine ⟨?_, ?_, ?_, ?_, ?_, ?_, ?_, ?_, ?_, ?_⟩
  · intro i hi h
    rw [show (buildValidActionMask r cfg obs).getD 3 [] =
        ((List.range cfg.jadCount).foldl
          (fun m (jadIdx : Nat) =>
            (List.range cfg.healersPerJad).foldl
              (fun m (healerIdx : Nat) =>
                m.set (1 + cfg.jadCount + jadIdx * cfg.healersPerJad + healerIdx)
                  (getHealer r (jadIdx : Int) (healerIdx : Int)).isSome)
              m)
          ((List.range cfg.jadCount).foldl
            (fun m (i : Nat) => m.set (1 + i) (getJad r (i : Int)).isSome)
            ((List.replicate (getTargetHeadSize cfg) false).set 0 true)))
        from rfl,
      jadHealerFolds_get?_jad r cfg _ i hi (by rw [hbase1]; omega)] at h
    simpa using h
  · intro j k hj hk h
    rw [show (buildValidActionMask r cfg obs).getD 3 [] =
        ((List.range cfg.jadCount).foldl
          (fun m (jadIdx : Nat) =>
            (List.range cfg.healersPerJad).foldl
              (fun m (healerIdx : Nat) =>
                m.set (1 + cfg.jadCount + jadIdx * cfg.healersPerJad + healerIdx)
                  (getHealer r (jadIdx : Int) (healerIdx : Int)).isSome)
              m)
          ((List.range cfg.jadCount).foldl
            (fun m (i : Nat) => m.set (1 + i) (getJad r (i : Int)).isSome)
            ((List.replicate (getTargetHeadSize cfg) false).set 0 true)))
        from rfl,
      jadHealerFolds_get?_healer r cfg _ j k hj hk (by rw [hbase1])] at h
    simpa using h
  · intro h
    rw [show ((buildValidActionMask r cfg obs).getD 2 []).get? 1 =
        some (decide (0 < obs.bastion_doses)) from rfl] at h
    simpa using h
  · intro h
    rw [show ((buildValidActionMask r cfg obs).getD 2 []).get? 2 =
        some (decide (0 < obs.super_restore_doses)) from rfl] at h
    simpa using h
  · intro h
    rw [show ((buildValidActionMask r cfg obs).getD 2 []).get? 3 =
        some (decide (0 < obs.sara_brew_doses)) from rfl] at h
    simpa using h
  · intro i hi h
    rw [legacy_mask_target_get? r cfg obs (1 + i) (by omega),
      jadHealerFolds_get?_jad r cfg _ i hi (by rw [hbase2]; omega)] at h
    simpa using h
  · intro j k hj hk h
    have hlt : j * cfg.healersPerJad + k < cfg.jadCount * cfg.healersPerJad :=
      mul_add_lt_mul hj hk
    rw [legacy_mask_target_get? r cfg obs
        (1 + cfg.jadCount + j * cfg.healersPerJad + k) (by omega),
      jadHealerFolds_get?_healer r cfg _ j k hj hk (by rw [hbase2]; omega)] at h
    simpa using h
  · intro h
    rw [(legacy_mask_potion_get? r cfg obs).1] at h
    simpa using h
  · intro h
    rw [(legacy_mask_potion_get? r cfg obs).2.1] at h
    simpa using h
  · intro h
    rw [(legacy_mask_potion_get? r cfg obs).2.2] at h
    simpa using h

/-- C2 witness: with one live boss, one live registered add and one bastion
dose, the mask entries that read true certify presence. -/
theorem c2_mask_soundness_witness :
    (getJad maskRegionWitness 0).isSome = true ∧
    (getHealer maskRegionWitness 0 0).isSome = true ∧
    0 < doseObsWitness.bastion_doses := by
  have h := c2_mask_soundness maskRegionWitness { jadCount := 1, healersPerJad := 1 }
    doseObsWitness
  exact ⟨h.1 0 (by decide) (by decide), h.2.1 0 0 (by decide) (by decide) (by decide),
    h.2.2.1 (by decide)⟩

/-- C1 (failing input): a boss whose countdown sits at 1 launches a magic
attack (countdown resets to 8) and then counts down with no further launch.
The tracker's write of `ticksRemaining := 4` is decremented in the same
update, so the reported attack value is non-zero for exactly 3 consecutive
ticks - not the 4 the spec (and the code's own "visible for 4 ticks"
comment) state - before reading IDLE; a melee launch
(`ticksRemaining := 2`) reads non-zero for exactly 1 tick, as specified. -/
theorem c1_attack_window_three_ticks_not_four :
    ((runAttackTracking { jadCount := 1, healersPerJad := 3 }
        [{ attack := 0, ticksRemaining := 0, prevAttackDelay := 1 }]
        [trackerRegion 8 "magic", trackerRegion 7 "magic", trackerRegion 6 "magic",
          trackerRegion 5 "magic", trackerRegion 4 "magic"]).map
        (fun states => (states.get? 0).map (fun s => s.attack))) =
      [some 1, some 1, some 1, some 0, some 0] ∧
    ((runAttackTracking { jadCount := 1, healersPerJad := 3 }
        [{ attack := 0, ticksRemaining := 0, prevAttackDelay := 1 }]
        [trackerRegion 8 "stab", trackerRegion 7 "stab", trackerRegion 6 "stab",
          trackerRegion 5 "stab"]).map
        (fun states => (states.get? 0).map (fun s => s.attack))) =
      [some 3, some 0, some 0, some 0] := by
  decide

/-- C8 counterexample: the configuration `{bossCount 0, addsPerBoss 3}` is
out of range, yet `JadRegion` construction succeeds (the constructor has no
failure path - it only stores the config) and the spawn-layout selection of
`initialiseRegion` silently substitutes the default single-boss layout
`JAD_SPAWN_POSITIONS[0]`, contradicting "fail fast, never silently
substitute". -/
theorem c8_out_of_range_counterexample :
    JadRegionConstruct { jadCount := 0, healersPerJad := 3 } =
      { config := { jadCount := 0, healersPerJad := 3 }, jads := [],
        healersMap := [] } ∧
    selectSpawnPositions { jadCount := 0, healersPerJad := 3 } =
      JAD_SPAWN_POSITIONS.headD [] ∧
    JAD_SPAWN_POSITIONS.headD [] = [(11, 22)] := by
  decide

/-- C8 (amended): out-of-range configurations are rejected with an error by
the headless entry point's `parseJadConfig` - and exactly those; `JadRegion`
construction itself performs no validation and always succeeds, and for a
boss count outside 1..6 the region-initialization spawn-layout lookup
silently falls back to the default single-boss layout. -/
theorem c8_config_validation_amended :
    (∀ jadCount healersPerJad : Int,
      (∃ msg, parseJadConfig jadCount healersPerJad = Except.error msg) ↔
        (jadCount < 1 ∨ 6 < jadCount ∨ healersPerJad < 0 ∨ 5 < healersPerJad)) ∧
    (∀ config : JadConfig,
      JadRegionConstruct config =
        { config := config, jads := [], healersMap := [] }) ∧
    (∀ config : JadConfig, config.jadCount = 0 ∨ 6 < config.jadCount →
      selectSpawnPositions config = JAD_SPAWN_POSITIONS.headD []) := by
  refine ⟨?_, ?_, ?_⟩
  · intro jadCount healersPerJad
    unfold parseJadConfig
    by_cases h1 : jadCount < 1 ∨ 6 < jadCount
    · rw [if_pos h1]
      exact iff_of_true ⟨_, rfl⟩ (by tauto)
    · rw [if_neg h1]
      by_cases h2 : healersPerJad < 0 ∨ 5 < healersPerJad
      · rw [if_pos h2]
        exact iff_of_true ⟨_, rfl⟩ (by tauto)
      · rw [if_neg h2]
        apply iff_of_false
        · rintro ⟨msg, hmsg⟩
          exact Except.noConfusion hmsg
        · push_neg at h1 h2
          omega
  · intro config
    rfl
  · intro config hc
    rcases hc with hc | hc
    · simp [selectSpawnPositions, listGetZ, hc]
    · unfold selectSpawnPositions listGetZ
      rw [if_neg (by omega), List.get?_eq_none.mpr]
      · rfl
      · show JAD_SPAWN_POSITIONS.length ≤ ((config.jadCount : Int) - 1).toNat
        have hlen : JAD_SPAWN_POSITIONS.length = 6 := rfl
        omega

/-- C8 amended witness: bossCount 0 is rejected by the entry-point parser,
and a 7-boss region silently selects the default layout. -/
theorem c8_config_validation_amended_witness :
    (∃ msg, parseJadConfig 0 3 = Except.error msg) ∧
    selectSpawnPositions { jadCount := 7, healersPerJad := 3 } =
      JAD_SPAWN_POSITIONS.headD [] :=
  ⟨(c8_config_validation_amended.1 0 3).mpr (by omega),
    c8_config_validation_amended.2.2 { jadCount := 7, healersPerJad := 3 }
      (by right; decide)⟩

end JadEnv
